import Mathlib

/-
Verification development for the diarization pipeline in
src/vbdiar/scoring/diarization.py (class Diarization).

The file shallowly embeds the pipeline: i-vector sets, index-file loading
(load_ivecs), scoring (score_ivec), RTTM dumping (dump_rttm) and speaker
count selection (get_num_speakers).  External library calls (sklearn KMeans,
pyclustering xmeans, sklearn cosine_similarity's pairwise kernel) are
nondeterministic or numeric, so they are passed in as oracle functions;
everything the repository's own code does with their results is modelled
concretely.  Real-valued scores are modelled over the rationals; the exact
numeric value of a similarity kernel never decides any of the properties
below, only shapes, ordering, control flow and raised errors do.
-/

namespace VBDiar

/-- Python exception kinds raised (or catchable) by the modelled code paths.
IOError is listed because load_ivecs catches it; the remaining constructors
model exceptions that propagate out of the Diarization methods. -/
inductive PyError where
  | ioError : PyError
  | indexError : PyError
  | valueError : PyError
  | keyError : String → PyError
  | attributeError : String → PyError
  | diarizationException : String → PyError
deriving DecidableEq

/- ---------------------------------------------------------------------
String helpers mirroring the Python primitives used by diarization.py.
All are structural recursions over character lists so that concrete
inputs evaluate by kernel reduction.
--------------------------------------------------------------------- -/

/-- Python str.rstrip(): drop trailing whitespace. -/
def pyRstrip (s : String) : String :=
  String.mk ((s.data.reverse.dropWhile Char.isWhitespace).reverse)

/-- Helper for pySplit: accumulate the current token (reversed) while
scanning the characters. -/
def pySplitAux : List Char → List Char → List String
  | cur, [] => if cur.isEmpty then [] else [String.mk cur.reverse]
  | cur, c :: cs =>
    if c.isWhitespace then
      if cur.isEmpty then pySplitAux [] cs
      else String.mk cur.reverse :: pySplitAux [] cs
    else pySplitAux (c :: cur) cs

/-- Python str.split() with no argument: split on whitespace runs,
discarding empty tokens. -/
def pySplit (s : String) : List String := pySplitAux [] s.data

/-- Digits of a decimal literal to a natural number; none if empty or a
non-digit appears. -/
def digitsToNat : List Char → Option Nat
  | [] => none
  | cs =>
    if cs.all Char.isDigit then
      some (cs.foldl (fun a c => 10 * a + (c.toNat - 48)) 0)
    else none

/-- Python int(str) on a base-10 literal: optional surrounding whitespace,
optional sign, at least one digit.  none models a raised ValueError. -/
def pyInt (s : String) : Option Int :=
  let t := (s.data.dropWhile Char.isWhitespace).reverse.dropWhile Char.isWhitespace |>.reverse
  match t with
  | '+' :: rest => (digitsToNat rest).map Int.ofNat
  | '-' :: rest => (digitsToNat rest).map (fun n => -(n : Int))
  | cs => (digitsToNat cs).map Int.ofNat

/-- Substring test on character lists: does the needle occur inside the
haystack (Python's in operator on strings)? -/
def containsL (hay pat : List Char) : Bool :=
  match hay with
  | [] => pat.isEmpty
  | _ :: t => pat.isPrefixOf hay || containsL t pat

/-- Python substring membership: pat in s. -/
def strContains (s pat : String) : Bool := containsL s.data pat.data

/-- Fuel-driven replacement of every non-overlapping occurrence of pat
(left to right), mirroring re.sub with a plain-text pattern.  The fuel is
the remaining haystack length, consumed at least one character per step. -/
def replaceFuel (pat rep : List Char) : Nat → List Char → List Char
  | _, [] => []
  | 0, l => l
  | Nat.succ n, c :: cs =>
    if pat.isPrefixOf (c :: cs) then
      rep ++ replaceFuel pat rep n (cs.drop (pat.length - 1))
    else c :: replaceFuel pat rep n cs

/-- Python re.sub(pat, rep, s) for a plain-text nonempty pattern: replace
all non-overlapping occurrences left to right. -/
def pyReplace (s pat rep : String) : String :=
  if pat.data.isEmpty then s
  else String.mk (replaceFuel pat.data rep.data s.data.length s.data)

/-- Python re.sub('/.*', '', s) for single-line names: keep everything
before the first slash. -/
def cutAtSlash (s : String) : String :=
  String.mk (s.data.takeWhile (fun c => c ≠ '/'))

/-- Split a character list at every occurrence of sep, keeping empty
pieces (Python str.split(sep)). -/
def splitOnCharL (sep : Char) : List Char → List (List Char)
  | [] => [[]]
  | c :: cs =>
    let r := splitOnCharL sep cs
    if c = sep then [] :: r
    else
      match r with
      | h :: t => (c :: h) :: t
      | [] => [[c]]

/-- Component pass of posixpath.normpath: drop empty and dot components,
resolve dot-dot against previously kept components.  The accumulator holds
kept components most recent first. -/
def normpathFold (initialSlashes : Nat) :
    List (List Char) → List (List Char) → List (List Char)
  | acc, [] => acc.reverse
  | acc, c :: cs =>
    if c = ([] : List Char) ∨ c = ['.'] then normpathFold initialSlashes acc cs
    else if c ≠ ['.', '.'] ∨ (initialSlashes = 0 ∧ acc = []) ∨
        acc.headD [] = ['.', '.'] ∧ acc ≠ [] then
      normpathFold initialSlashes (c :: acc) cs
    else
      match acc with
      | _ :: t => normpathFold initialSlashes t cs
      | [] => normpathFold initialSlashes [] cs

/-- Interleave a slash between path components. -/
def joinSlash : List (List Char) → List Char
  | [] => []
  | [c] => c
  | c :: cs => c ++ '/' :: joinSlash cs

/-- os.path.normpath on posix (Python 2 posixpath.normpath): collapse
repeated slashes, drop single-dot components, resolve dot-dot components,
preserve up to two leading slashes, map the empty path to a dot. -/
def normpath (p : String) : String :=
  if p.data.isEmpty then "."
  else
    let initialSlashes : Nat :=
      if ['/', '/'].isPrefixOf p.data ∧ ¬ ['/', '/', '/'].isPrefixOf p.data then 2
      else if ['/'].isPrefixOf p.data then 1
      else 0
    let comps := normpathFold initialSlashes [] (splitOnCharL '/' p.data)
    let res := List.replicate initialSlashes '/' ++ joinSlash comps
    if res.isEmpty then "." else String.mk res

/- ---------------------------------------------------------------------
Data model.
--------------------------------------------------------------------- -/

/-- Modelled from the spec: one i-vector (Embedding) of a recording — a
fixed-dimension vector plus its segment window in milliseconds.  The Ivec
class itself is repository code outside src/; diarization.py reads exactly
the fields below (plus mfccs, unused by the scoring core). -/
structure Ivec where
  vector : List ℚ
  window_start : Int
  window_end : Int
deriving DecidableEq

/-- Modelled from the spec: an EmbeddingSet (IvecSet) — a named, ordered
sequence of i-vectors with an optional declared speaker count.  The IvecSet
class is repository code outside src/; diarization.py uses its name, ivecs,
num_speakers, size() and get_all() members. -/
structure IvecSet where
  name : String
  ivecs : List Ivec
  num_speakers : Option Int
deriving DecidableEq

/-- Modelled from the spec: IvecSet.size() — the count of embeddings. -/
def IvecSet.size (s : IvecSet) : Nat := s.ivecs.length

/-- Modelled from the spec: IvecSet.get_all() — the dense matrix of the
set's vectors, order preserved. -/
def IvecSet.get_all (s : IvecSet) : List (List ℚ) := s.ivecs.map Ivec.vector

/-- Modelled from the spec: the optional score normalizer.  Its s_norm
contract (section 4.3/4.4 of the spec) recalibrates pairwise scores and
returns a ScoreMatrix-shaped array: rows indexed by centroids, column j
holding the scores of embedding j.  The Normalization class is repository
code outside src/, so it is modelled by its per-pair kernel. -/
structure Normalization where
  sNormEntry : List ℚ → List ℚ → ℚ

/-- Modelled from the spec: s_norm(embeddings, centroids) returns the
(numCentroids x numEmbeddings) matrix of pairwise normalized scores. -/
def Normalization.sNorm (nrm : Normalization) (embs cents : List (List ℚ)) :
    List (List ℚ) :=
  cents.map (fun c => embs.map (fun e => nrm.sNormEntry e c))

/-- Modelled from the spec: the pretrained discriminative scoring model
(PLDA).  Spec section 6: score(embeddings, centroids) -> matrix, with the
section 3 shape invariant (rows = centroids, columns = embeddings). -/
structure PLDA where
  scoreEntry : List ℚ → List ℚ → ℚ

/-- Modelled from the spec: PLDA score matrix of shape
(numCentroids x numEmbeddings), column j scoring embedding j. -/
def PLDA.score (p : PLDA) (embs cents : List (List ℚ)) : List (List ℚ) :=
  cents.map (fun c => embs.map (fun e => p.scoreEntry e c))

/-- Oracles for the external clustering libraries called by diarization.py:
sklearn KMeans cluster centers, PLDAKMeans refinement (repository code
outside src/, opaque to the scoring logic), pyclustering xmeans get_clusters
(which returns lists of point indices, one list per cluster), and the
cosine similarity kernel of sklearn.  They are explicit function arguments
because the libraries are external and (for the clusterers) randomized. -/
structure ClusterOracles where
  kmeansCenters : Int → List (List ℚ) → List (List ℚ)
  pldaKMeansFit : List (List ℚ) → Int → Option PLDA → List (List ℚ) → List (List ℚ)
  xmeansClusters : List (List ℚ) → Nat → List (List Nat)
  cosEntry : List ℚ → List ℚ → ℚ

/-- The attributes a Diarization object carries after __init__: the
configured normalizer and PLDA model (self.norm, self.plda), plus the
bundled external-library oracles.  Note that __init__ defines no s_norm
and no model attribute. -/
structure Diarization where
  norm : Option Normalization
  plda : Option PLDA
  oracles : ClusterOracles

/- ---------------------------------------------------------------------
load_ivecs (diarization.py lines 56-84).

Persisted pickle storage is an external collaborator: it is modelled as a
partial map from the opened path stem (the string the code prepends to
".pkl") to the deserialized IvecSet; none models a missing file, i.e. an
IOError raised by open, which the code catches.
--------------------------------------------------------------------- -/

/-- Warning message logged when a pickle file is missing (line 83-84). -/
def missMsg (t : String) : String :=
  "[Diarization.load_ivecs] No pickle file found for " ++ t ++ "."

/-- Error message for an index line with an unexpected column count
(lines 78-81). -/
def colsMsg (inputList : String) : String :=
  "[Diarization.load_ivecs] Unexpected number of columns in input list " ++
    inputList ++ "."

/-- Outcome of processing one index line in load_ivecs. -/
inductive LineResult where
  | yield : IvecSet → LineResult
  | warn : String → LineResult
  | err : PyError → LineResult
deriving DecidableEq

/-- One iteration of the load_ivecs loop (lines 63-84).  Control flow of
the source, in order: the loginfo call evaluates line.rstrip().split()[0],
which raises an uncaught IndexError on a line with no columns; a one-column
line opens the whole rstripped line as path stem; a two-column line first
parses int(second column) — an uncaught ValueError when malformed — and
then opens the first column as path stem, overriding num_speakers on the
loaded set; any other column count raises DiarizationException.  Only a
missing file (IOError from open) is caught and turned into a warning. -/
def loadLine (storage : String → Option IvecSet) (inputList rawLine : String) :
    LineResult :=
  match pySplit (pyRstrip rawLine) with
  | [] => LineResult.err PyError.indexError
  | [t] =>
    (match storage (pyRstrip rawLine) with
     | some s => LineResult.yield s
     | none => LineResult.warn (missMsg t))
  | [t0, t1] =>
    (match pyInt t1 with
     | none => LineResult.err PyError.valueError
     | some n =>
       match storage t0 with
       | some s => LineResult.yield { s with num_speakers := some n }
       | none => LineResult.warn (missMsg t0))
  | _ :: _ :: _ :: _ => LineResult.err (PyError.diarizationException (colsMsg inputList))

/-- load_ivecs over the lines of the index file: the generator is forced
into a list by __init__, so an uncaught exception on any line aborts the
whole load; otherwise the loaded sets are collected in line order together
with the warnings for skipped lines. -/
def loadIvecs (storage : String → Option IvecSet) (inputList : String) :
    List String → Except PyError (List IvecSet × List String)
  | [] => Except.ok ([], [])
  | rawLine :: rest =>
    match loadLine storage inputList rawLine with
    | LineResult.err e => Except.error e
    | LineResult.yield s =>
      (loadIvecs storage inputList rest).map (fun r => (s :: r.1, r.2))
    | LineResult.warn w =>
      (loadIvecs storage inputList rest).map (fun r => (r.1, w :: r.2))

/- ---------------------------------------------------------------------
score_ivec (diarization.py lines 86-119).
--------------------------------------------------------------------- -/

/-- Warning logged for an empty set (line 118). -/
def emptyScoreMsg (n : String) : String :=
  "[Diarization.score] No i-vectors to score in " ++ n ++ "."

/-- np.array(xm.get_clusters()) as it is used downstream: the per-cluster
index lists, coerced to numeric rows.  Lengths are preserved; each row is
a list of point indices, not an embedding-space vector. -/
def natClustersToQ (clusters : List (List Nat)) : List (List ℚ) :=
  clusters.map (fun c => c.map (fun i => (Nat.cast i : ℚ)))

/-- The centroid stage of score_ivec (lines 99-109): with a declared
speaker count run sklearn KMeans and, when a PLDA model is configured,
refine with PLDAKMeans; with no declared count run xmeans bounded by
max_num_speakers and take np.array(xm.get_clusters()) as the centroids. -/
def clusterStage (d : Diarization) (maxNumSpeakers : Nat) (s : IvecSet)
    (ivecs : List (List ℚ)) : List (List ℚ) :=
  match s.num_speakers with
  | some k =>
    let base := d.oracles.kmeansCenters k ivecs
    (match d.plda with
     | none => base
     | some _ => d.oracles.pldaKMeansFit base k d.plda ivecs)
  | none => natClustersToQ (d.oracles.xmeansClusters ivecs maxNumSpeakers)

/-- Shape admissibility check of sklearn's cosine_similarity(X, Y): both
inputs nonempty 2-D arrays with equal feature dimension; jagged rows (an
object-dtype np.array) or a dimension mismatch raise ValueError. -/
def sameDim (X Y : List (List ℚ)) : Bool :=
  match X, Y with
  | x :: _, y :: _ =>
    X.all (fun r => r.length == x.length) &&
    Y.all (fun r => r.length == y.length) &&
    (x.length == y.length)
  | _, _ => false

/-- sklearn cosine_similarity(X, Y): the (len X x len Y) matrix of pairwise
cosine scores, entry function abstracted as the oracle kernel; none models
the ValueError raised on inadmissible input. -/
def cosineSimilarity (ck : List ℚ → List ℚ → ℚ) (X Y : List (List ℚ)) :
    Option (List (List ℚ)) :=
  if sameDim X Y then some (X.map (fun x => Y.map (fun y => ck x y))) else none

/-- numpy .T on a matrix given as a list of rows: for a nonempty input the
j-th row of the result is the j-th column of the input. -/
def transposeM (m : List (List ℚ)) : List (List ℚ) :=
  match m with
  | [] => []
  | r :: _ => (List.range r.length).map (fun j => m.map (fun row => row.getD j 0))

/-- The scoring dispatch of score_ivec (lines 110-116), in source order:
a configured normalizer wins, else a configured PLDA model, else cosine
similarity transposed so that rows are centroids. -/
def scoringStage (d : Diarization) (ivecs centroids : List (List ℚ)) :
    Except PyError (List (List ℚ)) :=
  match d.norm with
  | some nrm => Except.ok (nrm.sNorm ivecs centroids)
  | none =>
    match d.plda with
    | some p => Except.ok (p.score ivecs centroids)
    | none =>
      match cosineSimilarity d.oracles.cosEntry ivecs centroids with
      | some m => Except.ok (transposeM m)
      | none => Except.error PyError.valueError

/-- Observable outcome of score_ivec: the scores mapping in insertion
order, the warnings logged, and the sets on which clustering was invoked. -/
structure ScoreResult where
  entries : List (String × List (List ℚ))
  warnings : List String
  clusterCalls : List String
deriving DecidableEq

/-- score_ivec (lines 86-119): for each set in order, if it is non-empty
run the centroid stage and the scoring dispatch and store the matrix under
os.path.normpath of the set's name; otherwise log a warning and store
nothing.  An exception escaping any stage aborts the whole call. -/
def scoreIvecAux (d : Diarization) (maxNumSpeakers : Nat) :
    List IvecSet → Except PyError ScoreResult
  | [] => Except.ok ⟨[], [], []⟩
  | s :: rest =>
    if 0 < s.size then
      match scoringStage d s.get_all (clusterStage d maxNumSpeakers s s.get_all) with
      | Except.error e => Except.error e
      | Except.ok mat =>
        (scoreIvecAux d maxNumSpeakers rest).map
          (fun r => ⟨(normpath s.name, mat) :: r.entries, r.warnings, s.name :: r.clusterCalls⟩)
    else
      (scoreIvecAux d maxNumSpeakers rest).map
        (fun r => ⟨r.entries, emptyScoreMsg s.name :: r.warnings, r.clusterCalls⟩)

/-- Entry point matching Diarization.score_ivec(self, max_num_speakers). -/
def scoreIvec (d : Diarization) (maxNumSpeakers : Nat) (sets : List IvecSet) :
    Except PyError ScoreResult :=
  scoreIvecAux d maxNumSpeakers sets

/- ---------------------------------------------------------------------
dump_rttm (diarization.py lines 129-155).
--------------------------------------------------------------------- -/

/-- The data of one written RTTM line: SPEAKER reg 1 start dur ... reg_spkr_idx. -/
structure RttmLine where
  reg : String
  start : ℚ
  dur : ℚ
  idx : Nat
deriving DecidableEq

/-- Observable outcome of dump_rttm: per-recording timeline tuples keyed by
the raw set name (the opened file path stem), the set collection after the
call (dump_rttm mutates set names in place), and the warnings logged. -/
structure DumpResult where
  outputs : List (String × List RttmLine)
  sets : List IvecSet
  warnings : List String
deriving DecidableEq

/-- Warning logged for an empty set (line 155). -/
def emptyDumpMsg (n : String) : String :=
  "[Diarization.dump_rttm] No i-vectors to dump in " ++ n ++ "."

/-- The in-place rename of lines 142-145: a set whose name contains
beamformed has every beamformed/ occurrence removed from its name. -/
def mutateName (s : IvecSet) : IvecSet :=
  if strContains s.name "beamformed" then
    { s with name := pyReplace s.name "beamformed/" "" }
  else s

/-- One column of a score matrix: entry i of every centroid row.  For a
matrix of shape (numCentroids x numEmbeddings) and j < numEmbeddings this
is the vector of scores of embedding j against each centroid. -/
def column (mat : List (List ℚ)) (j : Nat) : List ℚ :=
  mat.map (fun row => row.getD j 0)

/-- scores[name].T[i] (line 151): row i of the transposed matrix; an index
out of range raises IndexError. -/
def colOf (mat : List (List ℚ)) (i : Nat) : Except PyError (List ℚ) :=
  match (transposeM mat).get? i with
  | some c => Except.ok c
  | none => Except.error PyError.indexError

/-- np.argmax: index of the first occurrence of the maximum. -/
def npArgmaxAux : List ℚ → Nat → Nat → ℚ → Nat
  | [], _, best, _ => best
  | x :: xs, i, best, bv =>
    if bv < x then npArgmaxAux xs (i + 1) i x else npArgmaxAux xs (i + 1) best bv

/-- np.argmax over a vector (first index attaining the maximum). -/
def npArgmax : List ℚ → Nat
  | [] => 0
  | x :: xs => npArgmaxAux xs 1 0 x

/-- The per-segment loop of dump_rttm (lines 149-153): for segment i the
written tuple has start window_start/1000, duration
(window_end - window_start)/1000 and speaker index argmax of column i of
the recording's score matrix. -/
def rttmLines (regName : String) (mat : List (List ℚ)) :
    List Ivec → Nat → Except PyError (List RttmLine)
  | [], _ => Except.ok []
  | v :: vs, i =>
    match colOf mat i with
    | Except.error e => Except.error e
    | Except.ok col =>
      (rttmLines regName mat vs (i + 1)).map
        (fun ls =>
          ⟨regName, (v.window_start : ℚ) / 1000,
            ((v.window_end - v.window_start : Int) : ℚ) / 1000,
            npArgmax col⟩ :: ls)

/-- dump_rttm (lines 129-155): for each non-empty set, capture the raw name
(used both as output file stem and as the scores key), apply the beamformed
rename to the set in place, derive the recording id by cutting the renamed
name at the first slash, and emit one tuple per segment; a missing scores
key raises KeyError, aborting the call.  Empty sets are skipped with a
warning and left untouched. -/
def dumpRttmAux (scores : List (String × List (List ℚ))) :
    List IvecSet → Except PyError DumpResult
  | [] => Except.ok ⟨[], [], []⟩
  | s :: rest =>
    if 0 < s.size then
      let s' := mutateName s
      match List.lookup s.name scores with
      | none => Except.error (PyError.keyError s.name)
      | some mat =>
        match rttmLines (cutAtSlash s'.name) mat s.ivecs 0 with
        | Except.error e => Except.error e
        | Except.ok lines =>
          (dumpRttmAux scores rest).map
            (fun r => ⟨(s.name, lines) :: r.outputs, s' :: r.sets, r.warnings⟩)
    else
      (dumpRttmAux scores rest).map
        (fun r => ⟨r.outputs, s :: r.sets, emptyDumpMsg s.name :: r.warnings⟩)

/- ---------------------------------------------------------------------
get_num_speakers (diarization.py lines 157-179).
--------------------------------------------------------------------- -/

/-- Python range(a, b) over integers. -/
def pyRange (a b : Int) : List Int :=
  (List.range (b - a).toNat).map (fun i => a + Int.ofNat i)

/-- get_num_speakers (lines 157-179).  The Diarization object defines no
s_norm attribute and no model attribute, so the method cannot complete:
with a nonempty candidate range the first loop iteration runs KMeans and
PLDAKMeans and then evaluates self.s_norm, raising AttributeError; with an
empty range the loop is skipped and self.model raises AttributeError. -/
def getNumSpeakers (d : Diarization) (ivecs : List (List ℚ))
    (minSpeakers maxSpeakers : Int) : Except PyError (Int × List (List ℚ)) :=
  match pyRange minSpeakers (maxSpeakers + 1) with
  | [] => Except.error (PyError.attributeError "model")
  | k :: _ =>
    let base := d.oracles.kmeansCenters k ivecs
    let _centroids := d.oracles.pldaKMeansFit base k d.plda ivecs
    Except.error (PyError.attributeError "s_norm")

/- ---------------------------------------------------------------------
Statements of the claims that turn out to be false, as stated.
--------------------------------------------------------------------- -/

/-- Claim C6 as stated: every index line whose column count is neither one
nor two makes the load fail with the malformed-index DiarizationException. -/
def claimC6Prop : Prop :=
  ∀ (storage : String → Option IvecSet) (inputList rawLine : String)
    (rest : List String),
    (pySplit (pyRstrip rawLine)).length ≠ 1 →
    (pySplit (pyRstrip rawLine)).length ≠ 2 →
    ∃ msg, loadIvecs storage inputList (rawLine :: rest) =
      Except.error (PyError.diarizationException msg)

/-- A per-recording failure in the sense of claim C7: a line whose
persisted record is missing, or whose speaker-count token is malformed. -/
def perRecordFailure (storage : String → Option IvecSet) (rawLine : String) :
    Prop :=
  (∃ t, pySplit (pyRstrip rawLine) = [t] ∧ storage (pyRstrip rawLine) = none) ∨
  (∃ t0 t1, pySplit (pyRstrip rawLine) = [t0, t1] ∧
    (storage t0 = none ∨ pyInt t1 = none))

/-- Claim C7 as stated: a per-recording failure never aborts the remaining
recordings — whatever the rest of the index yields on its own is still
delivered when the failing line precedes it. -/
def claimC7Prop : Prop :=
  ∀ (storage : String → Option IvecSet) (inputList rawLine : String)
    (rest : List String) (sets : List IvecSet) (ws : List String),
    perRecordFailure storage rawLine →
    loadIvecs storage inputList rest = Except.ok (sets, ws) →
    ∃ ws2, loadIvecs storage inputList (rawLine :: rest) = Except.ok (sets, ws2)

/-- Claim C8 as stated: dump_rttm leaves every field of every set
unchanged, so a successful call returns the set collection intact. -/
def claimC8Prop : Prop :=
  ∀ (scores : List (String × List (List ℚ))) (sets : List IvecSet)
    (res : DumpResult),
    dumpRttmAux scores sets = Except.ok res → res.sets = sets

/-- The beamformed rewrite of dump_rttm applied to a name. -/
def rewrName (n : String) : String :=
  if strContains n "beamformed" then pyReplace n "beamformed/" "" else n

/-- Claim C10 as stated: score_ivec keys scores by the path-normalized set
name and dump_rttm resolves the (possibly beamformed-rewritten) name, so
for a non-empty single-recording run the lookup succeeds exactly when the
rewritten name equals its path-normalized form, and otherwise dump_rttm
fails with a key-lookup error. -/
def claimC10Prop : Prop :=
  ∀ (d : Diarization) (maxNumSpeakers : Nat) (s : IvecSet) (res : ScoreResult),
    0 < s.size →
    scoreIvec d maxNumSpeakers [s] = Except.ok res →
    ((rewrName s.name = normpath (rewrName s.name) →
        ∃ mat, List.lookup s.name res.entries = some mat) ∧
     (rewrName s.name ≠ normpath (rewrName s.name) →
        dumpRttmAux res.entries [s] = Except.error (PyError.keyError s.name)))

/-- After a successful dump_rttm, how each set actually comes back: the
name of a non-empty set containing beamformed is rewritten, nothing else
changes (see c8_amended_only_beamformed_renamed). -/
def dumpSetUpdate (s : IvecSet) : IvecSet :=
  if 0 < s.size then mutateName s else s

/- ---------------------------------------------------------------------
Concrete witness data.
--------------------------------------------------------------------- -/

/-- Trivial oracles: xmeans reports the index partition [[0],[1,2]], the
other oracles return constants.  Used to instantiate universally
quantified theorems at a concrete configuration. -/
def O0 : ClusterOracles :=
  ⟨fun _ _ => [], fun _ _ _ _ => [], fun _ _ => [[0], [1, 2]], fun _ _ => 0⟩

/-- A Diarization with no normalizer and no PLDA model. -/
def d0 : Diarization := ⟨none, none, O0⟩

/-- A constant-kernel normalizer. -/
def nrm0 : Normalization := ⟨fun _ _ => 0⟩

/-- A Diarization with a normalizer configured. -/
def d10 : Diarization := ⟨some nrm0, none, O0⟩

/-- Three embeddings of dimension 2, no declared speaker count. -/
def set3 : IvecSet :=
  ⟨"rec", [⟨[1, 0], 0, 1000⟩, ⟨[0, 1], 1000, 2000⟩, ⟨[1, 1], 2000, 3000⟩], none⟩

/-- A set with no embeddings. -/
def emptySet : IvecSet := ⟨"emp", [], none⟩

/-- A one-segment recording for the dump_rttm witnesses. -/
def s0 : IvecSet := ⟨"rec", [⟨[1], 0, 1500⟩], none⟩

/-- Score mapping for s0: two centroids, one embedding. -/
def scores0 : List (String × List (List ℚ)) := [("rec", [[3], [5]])]

/-- The score matrix stored for s0 in scores0. -/
def mat0 : List (List ℚ) := [[3], [5]]

/-- The dump_rttm outcome on scores0 and s0, fields written exactly as the
code computes them. -/
def dumpRes0 : DumpResult :=
  ⟨[("rec", [⟨"rec", ((0 : Int) : ℚ) / 1000,
      (((1500 : Int) - (0 : Int) : Int) : ℚ) / 1000, 1⟩])], [s0], []⟩

/-- A non-empty set whose name contains beamformed. -/
def sBeam : IvecSet := ⟨"beamformed/rec1", [⟨[1], 0, 1000⟩], none⟩

/-- Scores for sBeam, keyed (as score_ivec would) by the normalized raw
name, which here coincides with the raw name. -/
def scoresB : List (String × List (List ℚ)) := [("beamformed/rec1", [[2]])]

/-- The dump_rttm outcome on scoresB and sBeam: the set comes back
renamed. -/
def resB : DumpResult :=
  ⟨[("beamformed/rec1", [⟨"rec1", ((0 : Int) : ℚ) / 1000,
      (((1000 : Int) - (0 : Int) : Int) : ℚ) / 1000, 0⟩])],
   [⟨"rec1", [⟨[1], 0, 1000⟩], none⟩], []⟩

/-- A non-empty set whose raw name contains a double slash inside the
beamformed prefix, with a declared speaker count. -/
def s10 : IvecSet := ⟨"beamformed//rec", [⟨[1], 0, 1000⟩], some 1⟩

/-- The score_ivec outcome on d10 and s10: the single entry is keyed by
the path-normalized raw name. -/
def res10 : ScoreResult := ⟨[("beamformed/rec", [])], [], ["beamformed//rec"]⟩

/-- Storage with no persisted records at all. -/
def stEmpty : String → Option IvecSet := fun _ => none

/-- An empty set persisted under the name b. -/
def setB : IvecSet := ⟨"b", [], none⟩

/-- Storage holding exactly the record b. -/
def storage1 : String → Option IvecSet :=
  fun n => if n = "b" then some setB else none

/- ---------------------------------------------------------------------
Lemmas about load_ivecs.
--------------------------------------------------------------------- -/

theorem loadLine_one_missing (storage : String → Option IvecSet)
    (inputList rawLine t : String)
    (hsplit : pySplit (pyRstrip rawLine) = [t])
    (hmiss : storage (pyRstrip rawLine) = none) :
    loadLine storage inputList rawLine = LineResult.warn (missMsg t) := by
  simp [loadLine, hsplit, hmiss]

theorem loadLine_two_missing (storage : String → Option IvecSet)
    (inputList rawLine t0 t1 : String) (n : Int)
    (hsplit : pySplit (pyRstrip rawLine) = [t0, t1])
    (hint : pyInt t1 = some n)
    (hmiss : storage t0 = none) :
    loadLine storage inputList rawLine = LineResult.warn (missMsg t0) := by
  simp [loadLine, hsplit, hint, hmiss]

theorem loadLine_badint (storage : String → Option IvecSet)
    (inputList rawLine t0 t1 : String)
    (hsplit : pySplit (pyRstrip rawLine) = [t0, t1])
    (hint : pyInt t1 = none) :
    loadLine storage inputList rawLine = LineResult.err PyError.valueError := by
  simp [loadLine, hsplit, hint]

theorem loadLine_many_columns (storage : String → Option IvecSet)
    (inputList rawLine : String)
    (h : 3 ≤ (pySplit (pyRstrip rawLine)).length) :
    loadLine storage inputList rawLine =
      LineResult.err (PyError.diarizationException (colsMsg inputList)) := by
  rcases hl : pySplit (pyRstrip rawLine) with _ | ⟨a, _ | ⟨b, _ | ⟨c, t⟩⟩⟩
  · rw [hl] at h; simp at h
  · rw [hl] at h; simp at h
  · rw [hl] at h; simp at h
  · simp [loadLine, hl]

theorem loadIvecs_cons_warn (storage : String → Option IvecSet)
    (inputList rawLine : String) (rest : List String) (w : String)
    (h : loadLine storage inputList rawLine = LineResult.warn w) :
    loadIvecs storage inputList (rawLine :: rest) =
      (loadIvecs storage inputList rest).map (fun r => (r.1, w :: r.2)) := by
  simp only [loadIvecs]
  rw [h]

theorem loadIvecs_cons_err (storage : String → Option IvecSet)
    (inputList rawLine : String) (rest : List String) (e : PyError)
    (h : loadLine storage inputList rawLine = LineResult.err e) :
    loadIvecs storage inputList (rawLine :: rest) = Except.error e := by
  simp only [loadIvecs]
  rw [h]

/-- Claim C5: an index line naming a recording whose persisted pickle file
is absent is skipped with a warning; loading continues with the next line,
the recording is absent from the loaded collection, and no exception
propagates from that line — in both the one-column and the two-column
(valid count) forms. -/
theorem c5_missing_record_skipped (storage : String → Option IvecSet)
    (inputList rawLine : String) (rest : List String) :
    (∀ t, pySplit (pyRstrip rawLine) = [t] →
      storage (pyRstrip rawLine) = none →
      loadIvecs storage inputList (rawLine :: rest) =
        (loadIvecs storage inputList rest).map (fun r => (r.1, missMsg t :: r.2))) ∧
    (∀ t0 t1 n, pySplit (pyRstrip rawLine) = [t0, t1] → pyInt t1 = some n →
      storage t0 = none →
      loadIvecs storage inputList (rawLine :: rest) =
        (loadIvecs storage inputList rest).map (fun r => (r.1, missMsg t0 :: r.2))) := by
  constructor
  · intro t hsplit hmiss
    exact loadIvecs_cons_warn storage inputList rawLine rest (missMsg t)
      (loadLine_one_missing storage inputList rawLine t hsplit hmiss)
  · intro t0 t1 n hsplit hint hmiss
    exact loadIvecs_cons_warn storage inputList rawLine rest (missMsg t0)
      (loadLine_two_missing storage inputList rawLine t0 t1 n hsplit hint hmiss)

theorem c5_missing_record_skipped_witness :
    pySplit (pyRstrip "rec1 2") = ["rec1", "2"] ∧ pyInt "2" = some 2 ∧
    stEmpty "rec1" = none ∧
    loadIvecs stEmpty "list" ["rec1 2"] =
      (loadIvecs stEmpty "list" []).map (fun r => (r.1, missMsg "rec1" :: r.2)) :=
  ⟨rfl, rfl, rfl,
    (c5_missing_record_skipped stEmpty "list" "rec1 2" []).2 "rec1" "2" 2 rfl rfl rfl⟩

/-- Claim C6 fails as stated: a zero-column (blank) index line aborts the
load with an IndexError raised by the logging call, not with the
malformed-index DiarizationException. -/
theorem c6_zero_columns_counterexample : ¬ claimC6Prop := by
  intro h
  obtain ⟨msg, hm⟩ := h stEmpty "list" " " [] (by decide) (by decide)
  rw [show loadIvecs stEmpty "list" [" "] = Except.error PyError.indexError from rfl]
    at hm
  exact PyError.noConfusion (Except.error.inj hm)

/-- Claim C6 amended: every index line with three or more whitespace
columns fails with the malformed-index DiarizationException, which
propagates to the caller and aborts the load of that index (it is not
swallowed by the missing-file handler); a zero-column line also aborts the
load, but with an index error from the logging prelude instead. -/
theorem c6_amended_three_columns_abort (storage : String → Option IvecSet)
    (inputList rawLine : String) (rest : List String)
    (h : 3 ≤ (pySplit (pyRstrip rawLine)).length) :
    loadIvecs storage inputList (rawLine :: rest) =
      Except.error (PyError.diarizationException (colsMsg inputList)) :=
  loadIvecs_cons_err storage inputList rawLine rest _
    (loadLine_many_columns storage inputList rawLine h)

theorem c6_amended_three_columns_abort_witness :
    3 ≤ (pySplit (pyRstrip "a b c")).length ∧
    loadIvecs stEmpty "list" ["a b c"] =
      Except.error (PyError.diarizationException (colsMsg "list")) :=
  ⟨by decide, c6_amended_three_columns_abort stEmpty "list" "a b c" [] (by decide)⟩

/-- Claim C7 fails as stated: a malformed speaker-count token (non-integer
second column) raises an uncaught ValueError that aborts the whole load,
so a well-formed later line does not yield its set. -/
theorem c7_malformed_count_counterexample : ¬ claimC7Prop := by
  intro h
  obtain ⟨ws2, hw⟩ := h storage1 "list" "a xx" ["b"] [setB] []
    (Or.inr ⟨"a", "xx", rfl, Or.inr rfl⟩) rfl
  rw [show loadIvecs storage1 "list" ["a xx", "b"] = Except.error PyError.valueError
    from rfl] at hw
  exact Except.noConfusion hw

/-- Claim C7 amended: a missing persisted record does not abort processing
of the remaining recordings — the line is skipped with a warning and the
rest of the index is processed unchanged; but a malformed speaker-count
token raises an uncaught ValueError that aborts the load, so the remaining
recordings yield nothing. -/
theorem c7_amended_missing_tolerated_badint_fatal
    (storage : String → Option IvecSet) (inputList rawLine : String)
    (rest : List String) :
    (∀ t, pySplit (pyRstrip rawLine) = [t] →
      storage (pyRstrip rawLine) = none →
      loadIvecs storage inputList (rawLine :: rest) =
        (loadIvecs storage inputList rest).map (fun r => (r.1, missMsg t :: r.2))) ∧
    (∀ t0 t1 n, pySplit (pyRstrip rawLine) = [t0, t1] → pyInt t1 = some n →
      storage t0 = none →
      loadIvecs storage inputList (rawLine :: rest) =
        (loadIvecs storage inputList rest).map (fun r => (r.1, missMsg t0 :: r.2))) ∧
    (∀ t0 t1, pySplit (pyRstrip rawLine) = [t0, t1] → pyInt t1 = none →
      loadIvecs storage inputList (rawLine :: rest) =
        Except.error PyError.valueError) := by
  refine ⟨?_, ?_, ?_⟩
  · intro t hsplit hmiss
    exact loadIvecs_cons_warn storage inputList rawLine rest (missMsg t)
      (loadLine_one_missing storage inputList rawLine t hsplit hmiss)
  · intro t0 t1 n hsplit hint hmiss
    exact loadIvecs_cons_warn storage inputList rawLine rest (missMsg t0)
      (loadLine_two_missing storage inputList rawLine t0 t1 n hsplit hint hmiss)
  · intro t0 t1 hsplit hint
    exact loadIvecs_cons_err storage inputList rawLine rest PyError.valueError
      (loadLine_badint storage inputList rawLine t0 t1 hsplit hint)

theorem c7_amended_missing_tolerated_badint_fatal_witness :
    pySplit (pyRstrip "a xx") = ["a", "xx"] ∧ pyInt "xx" = none ∧
    loadIvecs storage1 "list" ["a xx", "b"] = Except.error PyError.valueError :=
  ⟨rfl, rfl,
    (c7_amended_missing_tolerated_badint_fatal storage1 "list" "a xx" ["b"]).2.2
      "a" "xx" rfl rfl⟩

/- ---------------------------------------------------------------------
score_ivec on empty sets (claim C4) and get_num_speakers (claim C9).
--------------------------------------------------------------------- -/

/-- Claim C4: a set with zero embeddings contributes exactly one warning
to a score_ivec run — no scores entry, no clustering invocation, no
exception; processing continues with the remaining sets unchanged. -/
theorem c4_empty_set_skipped (d : Diarization) (maxNumSpeakers : Nat)
    (s : IvecSet) (rest : List IvecSet) (h : s.size = 0) :
    scoreIvecAux d maxNumSpeakers (s :: rest) =
      (scoreIvecAux d maxNumSpeakers rest).map
        (fun r => ⟨r.entries, emptyScoreMsg s.name :: r.warnings, r.clusterCalls⟩) := by
  simp [scoreIvecAux, h]

theorem c4_empty_set_skipped_witness :
    emptySet.size = 0 ∧
    scoreIvecAux d0 6 [emptySet] =
      (scoreIvecAux d0 6 []).map
        (fun r => ⟨r.entries, emptyScoreMsg emptySet.name :: r.warnings,
          r.clusterCalls⟩) :=
  ⟨rfl, c4_empty_set_skipped d0 6 emptySet [] rfl⟩

theorem pyRange_ne_nil (a b : Int) (h : a < b) : pyRange a b ≠ [] := by
  intro hnil
  have hlen : (pyRange a b).length = 0 := by rw [hnil]; rfl
  rw [pyRange, List.length_map, List.length_range] at hlen
  omega

/-- Claim C9: whenever the candidate range is nonempty (min ≤ max, as with
the defaults 2 and 6), get_num_speakers raises AttributeError on the
undefined s_norm attribute — it never signals a ModelUnavailableError,
whatever the configuration. -/
theorem c9_get_num_speakers_attribute_error (d : Diarization)
    (ivecs : List (List ℚ)) (minSpeakers maxSpeakers : Int)
    (h : minSpeakers ≤ maxSpeakers) :
    getNumSpeakers d ivecs minSpeakers maxSpeakers =
      Except.error (PyError.attributeError "s_norm") := by
  unfold getNumSpeakers
  rcases hp : pyRange minSpeakers (maxSpeakers + 1) with _ | ⟨k, t⟩
  · exact absurd hp (pyRange_ne_nil minSpeakers (maxSpeakers + 1) (by omega))
  · rfl

theorem c9_get_num_speakers_attribute_error_witness :
    (2 : Int) ≤ 6 ∧
    getNumSpeakers d0 [[1]] 2 6 = Except.error (PyError.attributeError "s_norm") :=
  ⟨by decide, c9_get_num_speakers_attribute_error d0 [[1]] 2 6 (by decide)⟩

/- ---------------------------------------------------------------------
dump_rttm mutation of set names (claim C8).
--------------------------------------------------------------------- -/

/-- Claim C8 fails as stated: dump_rttm renames a non-empty set whose name
contains beamformed, so the set collection does not come back unchanged. -/
theorem c8_dump_rttm_mutates_counterexample : ¬ claimC8Prop := by
  intro h
  have h2 := congrArg (List.map IvecSet.name) (h scoresB [sBeam] resB rfl)
  rw [show resB.sets.map IvecSet.name = ["rec1"] from rfl,
    show [sBeam].map IvecSet.name = ["beamformed/rec1"] from rfl] at h2
  exact absurd h2 (by decide)

/-- Claim C8 amended: once scoring has begun, dump_rttm leaves the
embeddings and declared speaker count of every set unchanged and does not
touch empty sets, but it rewrites, in place, the name of every non-empty
set whose name contains beamformed, removing each beamformed/ occurrence;
every other field and every other set is unchanged. -/
theorem c8_amended_only_beamformed_renamed
    (scores : List (String × List (List ℚ))) (sets : List IvecSet)
    (res : DumpResult) (h : dumpRttmAux scores sets = Except.ok res) :
    res.sets = sets.map dumpSetUpdate := by
  induction sets generalizing res with
  | nil =>
    simp only [dumpRttmAux] at h
    cases h
    rfl
  | cons s rest ih =>
    simp only [dumpRttmAux] at h
    by_cases hs : 0 < s.size
    · rw [if_pos hs] at h
      rcases hl : List.lookup s.name scores with _ | mat
      · simp only [hl] at h
        exact Except.noConfusion h
      · simp only [hl] at h
        rcases hr : rttmLines (cutAtSlash (mutateName s).name) mat s.ivecs 0 with e | lines
        · simp only [hr] at h
          exact Except.noConfusion h
        · simp only [hr] at h
          rcases hrest : dumpRttmAux scores rest with e | r
          · simp only [hrest, Except.map] at h
            exact Except.noConfusion h
          · simp only [hrest, Except.map] at h
            injection h with h2
            subst h2
            simp [dumpSetUpdate, hs, ih r hrest]
    · rw [if_neg hs] at h
      rcases hrest : dumpRttmAux scores rest with e | r
      · simp only [hrest, Except.map] at h
        exact Except.noConfusion h
      · simp only [hrest, Except.map] at h
        injection h with h2
        subst h2
        simp [dumpSetUpdate, hs, ih r hrest]

theorem c8_amended_only_beamformed_renamed_witness :
    dumpRttmAux scoresB [sBeam] = Except.ok resB ∧
    resB.sets = [sBeam].map dumpSetUpdate :=
  ⟨rfl, c8_amended_only_beamformed_renamed scoresB [sBeam] resB rfl⟩

/- ---------------------------------------------------------------------
dump_rttm per-segment tuples (claim C2).
--------------------------------------------------------------------- -/

theorem transposeM_get?_eq_column (m : List (List ℚ)) (j : Nat) (c : List ℚ)
    (h : (transposeM m).get? j = some c) : c = column m j := by
  cases m with
  | nil => simp [transposeM] at h
  | cons r t =>
    simp only [transposeM, List.get?_map] at h
    rcases hr : (List.range r.length).get? j with _ | i
    · rw [hr] at h; exact Option.noConfusion h
    · rw [hr] at h
      have hi : i = j := by
        have hj : j < r.length := by
          by_contra hj
          rw [List.get?_eq_none.mpr (by simpa using Nat.le_of_not_lt hj)] at hr
          exact Option.noConfusion hr
        rw [List.get?_range hj] at hr
        exact (Option.some.inj hr).symm
      subst hi
      simp only [Option.map_some'] at h
      exact (Option.some.inj h).symm

theorem colOf_ok_eq_column (mat : List (List ℚ)) (i : Nat) (col : List ℚ)
    (h : colOf mat i = Except.ok col) : col = column mat i := by
  unfold colOf at h
  rcases hg : (transposeM mat).get? i with _ | c
  · rw [hg] at h; exact Except.noConfusion h
  · rw [hg] at h
    have : c = col := Except.ok.inj h
    subst this
    exact transposeM_get?_eq_column mat i c hg

theorem rttmLines_spec (regName : String) (mat : List (List ℚ)) :
    ∀ (vs : List Ivec) (i0 : Nat) (lines : List RttmLine),
      rttmLines regName mat vs i0 = Except.ok lines →
      lines.length = vs.length ∧
      ∀ j (hj : j < vs.length),
        lines.get? j =
          some ⟨regName,
            ((vs.get ⟨j, hj⟩).window_start : ℚ) / 1000,
            (((vs.get ⟨j, hj⟩).window_end - (vs.get ⟨j, hj⟩).window_start : Int) : ℚ) / 1000,
            npArgmax (column mat (i0 + j))⟩ := by
  intro vs
  induction vs with
  | nil =>
    intro i0 lines h
    simp only [rttmLines] at h
    injection h with h2
    subst h2
    exact ⟨rfl, fun j hj => absurd hj (Nat.not_lt_zero j)⟩
  | cons v vs ih =>
    intro i0 lines h
    simp only [rttmLines] at h
    rcases hc : colOf mat i0 with e | col
    · rw [hc] at h; exact Except.noConfusion h
    · rw [hc] at h
      rcases hrec : rttmLines regName mat vs (i0 + 1) with e | ls
      · simp only [hrec, Except.map] at h
        exact Except.noConfusion h
      · simp only [hrec, Except.map] at h
        injection h with h2
        subst h2
        obtain ⟨hlen, hget⟩ := ih (i0 + 1) ls hrec
        refine ⟨by simp [hlen], ?_⟩
        intro j hj
        cases j with
        | zero =>
          simp only [List.get?, List.get]
          rw [colOf_ok_eq_column mat i0 col hc, Nat.add_zero]
        | succ j2 =>
          have hj2 : j2 < vs.length := Nat.lt_of_succ_lt_succ hj
          have := hget j2 hj2
          simp only [List.get?, List.get]
          rw [this]
          have harith : i0 + 1 + j2 = i0 + (j2 + 1) := by omega
          rw [harith]

/-- Claim C2: in a successful dump_rttm run over a non-empty set whose
score matrix is found, the emitted timeline has one tuple per segment in
order, and the tuple of segment j carries start time window_start / 1000,
duration (window_end - window_start) / 1000, and the 0-based argmax over
centroid rows of column j of the recording's score matrix. -/
theorem c2_dump_rttm_tuples (scores : List (String × List (List ℚ)))
    (s : IvecSet) (mat : List (List ℚ)) (res : DumpResult)
    (hs : 0 < s.size) (hm : List.lookup s.name scores = some mat)
    (hr : dumpRttmAux scores [s] = Except.ok res) :
    ∃ lines, res.outputs = [(s.name, lines)] ∧
      lines.length = s.ivecs.length ∧
      ∀ j (hj : j < s.ivecs.length),
        lines.get? j =
          some ⟨cutAtSlash (mutateName s).name,
            ((s.ivecs.get ⟨j, hj⟩).window_start : ℚ) / 1000,
            (((s.ivecs.get ⟨j, hj⟩).window_end - (s.ivecs.get ⟨j, hj⟩).window_start : Int) : ℚ) / 1000,
            npArgmax (column mat j)⟩ := by
  simp only [dumpRttmAux] at hr
  rw [if_pos hs] at hr
  simp only [hm] at hr
  rcases hl : rttmLines (cutAtSlash (mutateName s).name) mat s.ivecs 0 with e | lines
  · rw [hl] at hr; exact Except.noConfusion hr
  · rw [hl] at hr
    simp only [Except.map] at hr
    injection hr with h2
    subst h2
    obtain ⟨hlen, hget⟩ := rttmLines_spec (cutAtSlash (mutateName s).name) mat s.ivecs 0 lines hl
    refine ⟨lines, rfl, hlen, ?_⟩
    intro j hj
    have := hget j hj
    rwa [Nat.zero_add] at this

theorem c2_dump_rttm_tuples_witness :
    0 < s0.size ∧
    List.lookup s0.name scores0 = some mat0 ∧
    dumpRttmAux scores0 [s0] = Except.ok dumpRes0 ∧
    (∃ lines, dumpRes0.outputs = [(s0.name, lines)] ∧
      lines.length = s0.ivecs.length ∧
      ∀ j (hj : j < s0.ivecs.length),
        lines.get? j =
          some ⟨cutAtSlash (mutateName s0).name,
            ((s0.ivecs.get ⟨j, hj⟩).window_start : ℚ) / 1000,
            (((s0.ivecs.get ⟨j, hj⟩).window_end - (s0.ivecs.get ⟨j, hj⟩).window_start : Int) : ℚ) / 1000,
            npArgmax (column mat0 j)⟩) :=
  ⟨by decide, rfl, rfl, c2_dump_rttm_tuples scores0 s0 mat0 dumpRes0 (by decide) rfl rfl⟩

/- ---------------------------------------------------------------------
Score keys versus dump_rttm lookup (claim C10).
--------------------------------------------------------------------- -/

/-- Claim C10 fails as stated: for the set named beamformed//rec the
beamformed-rewritten name /rec is already path-normalized, yet dump_rttm
raises KeyError — the lookup uses the raw name, which score_ivec stored
only in path-normalized form. -/
theorem c10_rewritten_name_counterexample : ¬ claimC10Prop := by
  intro h
  obtain ⟨mat, hm⟩ := (h d10 6 s10 res10 (by decide) rfl).1 (by decide)
  rw [show List.lookup s10.name res10.entries = none from rfl] at hm
  exact Option.noConfusion hm

/-- Claim C10 amended: score_ivec stores the matrix of a non-empty set
under the path-normalized raw name, while dump_rttm looks it up by the raw
pre-rewrite name (the beamformed rewrite touches only the emitted
recording id, not the lookup key); so in a single-recording run the lookup
succeeds when the raw name equals its path-normalized form, and otherwise
dump_rttm fails with a KeyError carrying the raw name. -/
theorem c10_amended_raw_key_lookup (d : Diarization) (maxNumSpeakers : Nat)
    (s : IvecSet) (res : ScoreResult) (hs : 0 < s.size)
    (h : scoreIvec d maxNumSpeakers [s] = Except.ok res) :
    (∃ mat, res.entries = [(normpath s.name, mat)]) ∧
    (s.name = normpath s.name → ∃ mat, List.lookup s.name res.entries = some mat) ∧
    (s.name ≠ normpath s.name →
      dumpRttmAux res.entries [s] = Except.error (PyError.keyError s.name)) := by
  simp only [scoreIvec, scoreIvecAux] at h
  rw [if_pos hs] at h
  rcases hsc : scoringStage d s.get_all (clusterStage d maxNumSpeakers s s.get_all)
    with e | mat
  · rw [hsc] at h; exact Except.noConfusion h
  · rw [hsc] at h
    simp only [Except.map] at h
    injection h with h2
    subst h2
    refine ⟨⟨mat, rfl⟩, ?_, ?_⟩
    · intro he
      refine ⟨mat, ?_⟩
      simp [List.lookup, ← he]
    · intro hne
      have hnone : List.lookup s.name [(normpath s.name, mat)] = none := by
        have hb : (s.name == normpath s.name) = false := beq_eq_false_iff_ne.mpr hne
        simp [List.lookup, hb]
      simp only [dumpRttmAux]
      rw [if_pos hs]
      simp only [hnone]

theorem c10_amended_raw_key_lookup_witness :
    0 < s10.size ∧
    scoreIvec d10 6 [s10] = Except.ok res10 ∧
    ((∃ mat, res10.entries = [(normpath s10.name, mat)]) ∧
     (s10.name = normpath s10.name →
        ∃ mat, List.lookup s10.name res10.entries = some mat) ∧
     (s10.name ≠ normpath s10.name →
        dumpRttmAux res10.entries [s10] =
          Except.error (PyError.keyError s10.name))) :=
  ⟨by decide, rfl, c10_amended_raw_key_lookup d10 6 s10 res10 (by decide) rfl⟩

/- ---------------------------------------------------------------------
The unknown-speaker-count path of score_ivec (claims C1 and C3).

With no declared speaker count, score_ivec takes np.array(xm.get_clusters())
as the centroids (line 109).  pyclustering's get_clusters() returns one
list of point indices per cluster: the lists are nonempty, pairwise
disjoint, and cover all points, so their lengths sum to the number of
embeddings; the cluster count lies in [2, kmax] (xmeans starts from two
initial centers and only splits, up to kmax).  The theorems below assume
only those contract facts about the oracle's output, so they hold for
every outcome of the randomized search.
--------------------------------------------------------------------- -/

theorem natClustersToQ_lengths (cl : List (List Nat)) :
    (natClustersToQ cl).map List.length = cl.map List.length := by
  induction cl with
  | nil => rfl
  | cons c t ih =>
    have hstep : natClustersToQ (c :: t) =
        (c.map fun i => (Nat.cast i : ℚ)) :: natClustersToQ t := rfl
    rw [hstep, List.map_cons, List.map_cons, ih, List.length_map]

theorem all_len_sum (l : List (List ℚ)) (dd : Nat)
    (h : ∀ c ∈ l, c.length = dd) :
    (l.map List.length).sum = dd * l.length := by
  induction l with
  | nil => simp
  | cons c t ih =>
    simp only [List.map_cons, List.sum_cons, List.length_cons]
    rw [h c (List.mem_cons_self c t), ih (fun x hx => h x (List.mem_cons_of_mem c hx))]
    ring

theorem sameDim_row_lengths (X Y : List (List ℚ)) (x0 : List ℚ) (Xt : List (List ℚ))
    (hX : X = x0 :: Xt) (h : sameDim X Y = true) :
    ∀ r ∈ Y, r.length = x0.length := by
  subst hX
  rcases Y with _ | ⟨y0, Yt⟩
  · intro r hr
    exact absurd hr (List.not_mem_nil r)
  · simp only [sameDim, Bool.and_eq_true, List.all_eq_true, beq_iff_eq] at h
    obtain ⟨⟨hXa, hYa⟩, hxy⟩ := h
    intro r hr
    rw [hYa r hr, ← hxy]

theorem cosine_on_clusters_of_three (ck : List ℚ → List ℚ → ℚ)
    (cl : List (List Nat)) (h2 : 2 ≤ cl.length)
    (hsum : (cl.map List.length).sum = 3) :
    cosineSimilarity ck set3.get_all (natClustersToQ cl) = none := by
  unfold cosineSimilarity
  rw [if_neg]
  intro htrue
  have hrows : ∀ r ∈ natClustersToQ cl, r.length = ([(1 : ℚ), 0]).length :=
    sameDim_row_lengths set3.get_all (natClustersToQ cl) [(1 : ℚ), 0]
      [[0, 1], [1, 1]] rfl htrue
  have hsum2 : ((natClustersToQ cl).map List.length).sum =
      2 * (natClustersToQ cl).length := all_len_sum (natClustersToQ cl) 2 hrows
  rw [natClustersToQ_lengths, hsum] at hsum2
  rw [show (natClustersToQ cl).length = cl.length from List.length_map cl _] at hsum2
  omega

/-- Claim C1 fails on the code: for a non-empty set with no declared
speaker count and neither normalizer nor PLDA configured, score_ivec's
cosine path receives the xmeans cluster index lists in place of centroids
and raises ValueError — for three embeddings of dimension two this happens
for every possible clustering outcome, so no score matrix of any shape is
produced.  (The spec's intent, scoring against D-dimensional centroids,
would require get_centers() instead of get_clusters().) -/
theorem c1_unknown_count_scoring_fails (d : Diarization) (maxNumSpeakers : Nat)
    (hn : d.norm = none) (hp : d.plda = none)
    (h2 : 2 ≤ (d.oracles.xmeansClusters set3.get_all maxNumSpeakers).length)
    (hsum : ((d.oracles.xmeansClusters set3.get_all maxNumSpeakers).map
      List.length).sum = 3) :
    scoreIvec d maxNumSpeakers [set3] = Except.error PyError.valueError := by
  have hcl : clusterStage d maxNumSpeakers set3 set3.get_all =
      natClustersToQ (d.oracles.xmeansClusters set3.get_all maxNumSpeakers) := rfl
  have hcs : cosineSimilarity d.oracles.cosEntry set3.get_all
      (natClustersToQ (d.oracles.xmeansClusters set3.get_all maxNumSpeakers)) =
      none :=
    cosine_on_clusters_of_three d.oracles.cosEntry
      (d.oracles.xmeansClusters set3.get_all maxNumSpeakers) h2 hsum
  have hstage : scoringStage d set3.get_all
      (clusterStage d maxNumSpeakers set3 set3.get_all) =
      Except.error PyError.valueError := by
    rw [hcl]
    simp only [scoringStage, hn, hp, hcs]
  simp only [scoreIvec, scoreIvecAux]
  rw [if_pos (show 0 < set3.size by decide)]
  simp only [hstage]

theorem c1_unknown_count_scoring_fails_witness :
    d0.norm = none ∧ d0.plda = none ∧
    2 ≤ (d0.oracles.xmeansClusters set3.get_all 6).length ∧
    ((d0.oracles.xmeansClusters set3.get_all 6).map List.length).sum = 3 ∧
    scoreIvec d0 6 [set3] = Except.error PyError.valueError :=
  ⟨rfl, rfl, by decide, by decide,
    c1_unknown_count_scoring_fails d0 6 rfl rfl (by decide) (by decide)⟩

/-- Claim C3 fails on the code: the unknown-count branch returns
np.array(xm.get_clusters()) — per-cluster lists of point indices — as the
centroids, and for three embeddings of dimension two at least one such
list has length different from two under every possible clustering
outcome, so the returned rows are not vectors of the common embedding
dimension.  (get_centers() would return the intended D-dimensional
centroids.) -/
theorem c3_xmeans_clusters_not_centroids (d : Diarization) (maxNumSpeakers : Nat)
    (h2 : 2 ≤ (d.oracles.xmeansClusters set3.get_all maxNumSpeakers).length)
    (hsum : ((d.oracles.xmeansClusters set3.get_all maxNumSpeakers).map
      List.length).sum = 3) :
    ∃ c ∈ clusterStage d maxNumSpeakers set3 set3.get_all, c.length ≠ 2 := by
  have hcl : clusterStage d maxNumSpeakers set3 set3.get_all =
      natClustersToQ (d.oracles.xmeansClusters set3.get_all maxNumSpeakers) := rfl
  rw [hcl]
  by_contra hno
  push_neg at hno
  have hsum2 : ((natClustersToQ
      (d.oracles.xmeansClusters set3.get_all maxNumSpeakers)).map List.length).sum =
      2 * (natClustersToQ (d.oracles.xmeansClusters set3.get_all maxNumSpeakers)).length :=
    all_len_sum _ 2 hno
  rw [natClustersToQ_lengths, hsum,
    show (natClustersToQ (d.oracles.xmeansClusters set3.get_all maxNumSpeakers)).length =
      (d.oracles.xmeansClusters set3.get_all maxNumSpeakers).length from
      List.length_map _ _] at hsum2
  omega

theorem c3_xmeans_clusters_not_centroids_witness :
    2 ≤ (d0.oracles.xmeansClusters set3.get_all 6).length ∧
    ((d0.oracles.xmeansClusters set3.get_all 6).map List.length).sum = 3 ∧
    (∃ c ∈ clusterStage d0 6 set3 set3.get_all, c.length ≠ 2) :=
  ⟨by decide, by decide,
    c3_xmeans_clusters_not_centroids d0 6 (by decide) (by decide)⟩

end VBDiar
